import Mathlib

/-!
Verification of the call-audio control layer of the NETOVO voicebot.

This file shallowly embeds the parts of the repository that the claims
touch:

* `SimpleAGI` and its operations (`agi_interface.py`, class `SimpleAGI`):
  the synchronous AGI command/reply channel, hangup inference, answering,
  playback and recording.  The transport is modelled explicitly: every
  `command` call is given the line that `sys.stdin.readline()` would
  produce for it (`some line`), or `none` when the underlying write or
  read raises.  A session (`AGISession`) threads a scripted list of such
  replies together with a log of the command verbs that were sent.
* `FastInterruptRecorder.get_user_input_with_interrupt`
  (`agi_interface.py`): utterance recording with the 300-byte viability
  threshold.
* The trailing-silence polling loop of
  `ProductionCallRecorder.get_user_input_with_mixmonitor`
  (`production_recorder.py`, lines 80-132).  The loop samples the size of
  the MixMonitor output file every 100 ms; time is idealised so that poll
  `k` happens at `k * 100` ms after the loop starts, matching the
  `time.sleep(0.1)` cadence of the source.  The probed file is modelled
  as a scripted function `Nat → Option Nat` (`none` = the file does not
  exist yet), and the `connected` flag as a per-poll observation.
* `WhisperASRClient.transcribe_file` (`whisper_asr_client.py`): file
  validation, sox conversion and transcript cleaning.  The effectful
  collaborators (filesystem, sox, the Whisper model) are modelled by a
  `TranscribeEnv` record; a raising collaborator is `none`.

Python string primitives (`strip`, `lower`, `split`, `replace`,
`startswith`, `in`) are given structural-recursive renderings on the
character list of a string, with ASCII semantics (the whitespace class
is `Char.isWhitespace`, case mapping is ASCII); the strings this layer
handles — AGI reply lines and English transcripts — are ASCII.
-/

/-- Python's `s.startswith(pre)`. -/
def startsWithL (s pre : String) : Bool :=
  pre.data.isPrefixOf s.data

/-- Python's `s.endswith(suf)`. -/
def endsWithL (s suf : String) : Bool :=
  suf.data.reverse.isPrefixOf s.data.reverse

/-- Python's substring test `needle in hay`. -/
def strContains (hay needle : String) : Bool :=
  (List.range (hay.data.length + 1)).any (fun i => needle.data.isPrefixOf (hay.data.drop i))

/-- Python's `s.strip()` on a character list. -/
def stripChars (l : List Char) : List Char :=
  ((l.dropWhile Char.isWhitespace).reverse.dropWhile Char.isWhitespace).reverse

/-- Python's `s.strip()`. -/
def pyStrip (s : String) : String :=
  String.mk (stripChars s.data)

/-- Python's `s.lower()` (ASCII). -/
def pyLower (s : String) : String :=
  String.mk (s.data.map Char.toLower)

/-- Splitter for Python's `s.split()`: break a character list at
whitespace runs, producing the nonempty words in order.  `acc` holds the
characters of the word being read, reversed. -/
def splitWsAux : List Char → List Char → List (List Char)
  | [], acc => if acc = [] then [] else [acc.reverse]
  | c :: rest, acc =>
    if c.isWhitespace then
      if acc = [] then splitWsAux rest [] else acc.reverse :: splitWsAux rest []
    else
      splitWsAux rest (c :: acc)

/-- Python's `s.split()`: the whitespace-separated words, no empties. -/
def pySplit (s : String) : List String :=
  (splitWsAux s.data []).map String.mk

/-- Python `" ".join(s.split())`: collapse whitespace runs. -/
def normSpace (s : String) : String :=
  String.mk (List.intercalate [' '] (splitWsAux s.data []))

/-- Fuelled worker for Python's `s.replace(needle, repl)`: at each
position, if the (nonempty) needle matches, emit the replacement and
skip past the match, else keep one character.  Fuel `≥` the length of
the list makes the fuel case unreachable. -/
def listReplaceAux (needle repl : List Char) : Nat → List Char → List Char
  | _, [] => []
  | 0, l => l
  | fuel + 1, c :: rest =>
    if needle ≠ [] ∧ needle.isPrefixOf (c :: rest) then
      repl ++ listReplaceAux needle repl fuel ((c :: rest).drop needle.length)
    else
      c :: listReplaceAux needle repl fuel rest

/-- Python's `s.replace(needle, repl)` (left to right, non-overlapping;
our needles are never empty). -/
def pyReplace (s needle repl : String) : String :=
  String.mk (listReplaceAux needle.data repl.data s.data.length s.data)

/-- State of `SimpleAGI` (`agi_interface.py`): `connected` is set `true`
only by the constructor (`__init__`), `call_answered` starts out `false`. -/
structure SimpleAGI where
  connected : Bool
  call_answered : Bool
deriving DecidableEq, Repr

/-- The freshly constructed `SimpleAGI` (`__init__`): connected, not answered. -/
def SimpleAGI.init : SimpleAGI := ⟨true, false⟩

/-- `SimpleAGI.command` (`agi_interface.py` lines 37-56).  `reply` is what
`sys.stdin.readline()` returns for this command (the source strips it);
`none` models the underlying write or read raising, which the source
catches, marking `connected = False` and returning the synthetic reply
`"ERROR"`.  A reply starting with `200 result=-1` or containing `hangup`
(case-insensitively) marks `connected = False`. -/
def SimpleAGI.command (a : SimpleAGI) (cmd : String) (reply : Option String) :
    SimpleAGI × String :=
  match reply with
  | none => (⟨false, a.call_answered⟩, "ERROR")
  | some line =>
    let result := pyStrip line
    if startsWithL result "200 result=-1" || strContains (pyLower result) "hangup" then
      (⟨false, a.call_answered⟩, result)
    else
      (a, result)

/-- A call session: the AGI state, the log of command lines sent so far,
and the scripted remaining reply lines of the transport.  An exhausted
script behaves like EOF on stdin: `readline` returns the empty string. -/
structure AGISession where
  agi : SimpleAGI
  sent : List String
  replies : List (Option String)
deriving DecidableEq, Repr

/-- Send one command within a session: pops the next scripted reply
(EOF gives the empty line) and records the command in the sent log. -/
def AGISession.command (s : AGISession) (cmd : String) : AGISession × String :=
  match s.replies with
  | [] =>
    let c := SimpleAGI.command s.agi cmd (some "")
    (⟨c.1, s.sent ++ [cmd], []⟩, c.2)
  | r :: rest =>
    let c := SimpleAGI.command s.agi cmd r
    (⟨c.1, s.sent ++ [cmd], rest⟩, c.2)

/-- `SimpleAGI.answer` (`agi_interface.py` lines 58-74): queries
`CHANNEL STATUS` first; a status reply containing `result=6` means the
call is already answered and no `ANSWER` command is issued.  Otherwise an
`ANSWER` command is sent and success requires a nonempty reply starting
with `200`. -/
def AGISession.answer (s : AGISession) : AGISession × Bool :=
  let c1 := s.command "CHANNEL STATUS"
  let s1 := c1.1
  if strContains c1.2 "result=6" then
    (⟨⟨s1.agi.connected, true⟩, s1.sent, s1.replies⟩, true)
  else
    let c2 := s1.command "ANSWER"
    let s2 := c2.1
    if c2.2 != "" && startsWithL c2.2 "200" then
      (⟨⟨s2.agi.connected, true⟩, s2.sent, s2.replies⟩, true)
    else
      (s2, false)

/-- `SimpleAGI.hangup` (`agi_interface.py` lines 76-79): issues `HANGUP`
and unconditionally clears `connected`. -/
def AGISession.hangup (s : AGISession) : AGISession :=
  let s1 := (s.command "HANGUP").1
  ⟨⟨false, s1.agi.call_answered⟩, s1.sent, s1.replies⟩

/-- Python `filename.rsplit(".", 1)[0]`, applied when the name contains
a dot: everything before the last dot. -/
def stripExt (n : String) : String :=
  if n.data.contains '.' then
    String.mk (((n.data.reverse.dropWhile (fun c => c != '.')).drop 1).reverse)
  else n

/-- `SimpleAGI.stream_file` (`agi_interface.py` lines 85-106): strips the
extension, issues `STREAM FILE`, succeeds on a nonempty `200` reply.  The
filesystem existence checks of the source only log and are omitted. -/
def AGISession.stream_file (s : AGISession) (filename : String) : AGISession × Bool :=
  let f := stripExt filename
  let c := s.command ("STREAM FILE " ++ f ++ " \x22\x22")
  (c.1, c.2 != "" && startsWithL c.2 "200")

/-- `SimpleAGI.record_file` (`agi_interface.py` lines 206-214): issues
`RECORD FILE`; a nonempty reply containing `result=-1` is a hangup during
recording and clears `connected`. -/
def AGISession.record_file (s : AGISession) (filename : String) : AGISession × Bool :=
  let c := s.command ("RECORD FILE " ++ filename ++ " wav \x22#\x22 15000 0 2")
  let s1 := c.1
  if c.2 != "" && strContains c.2 "result=-1" then
    (⟨⟨false, s1.agi.call_answered⟩, s1.sent, s1.replies⟩, false)
  else
    (s1, c.2 != "" && startsWithL c.2 "200")

/-- Per-iteration filesystem and ASR observations of the
`play_with_voice_interrupt` monitoring loop: the size of the 500 ms
monitor recording (`none` = file absent), the size of the clean
recording, and what the ASR returns for the clean recording. -/
structure FsEnv where
  monitorSize : Option Nat
  cleanSize : Option Nat
  asrText : String
deriving DecidableEq, Repr

/-- The monitoring `while` loop of `SimpleAGI.play_with_voice_interrupt`
(`agi_interface.py` lines 124-204), one `FsEnv` per iteration (the 30 s
cap bounds the number of iterations; an exhausted list is a completed
playback).  Replies are consumed from the session script in the order the
source sends commands: `GET OPTION`, then `RECORD FILE` for the monitor
window, and on voice detection `EXEC StopPlayback` and the clean
`RECORD FILE`. -/
def playVILoop (s : AGISession) : List FsEnv → AGISession × Bool × Option String
  | [] => (s, true, none)
  | e :: rest =>
    let c1 := s.command "GET OPTION \x22\x22 100"
    let s1 := c1.1
    let ps := c1.2
    if ps != "" && !(startsWithL ps "200 result=0") then
      if strContains (pyLower ps) "hangup" || strContains ps "result=-1" then
        (⟨⟨false, s1.agi.call_answered⟩, s1.sent, s1.replies⟩, false, none)
      else
        ((s1.command "EXEC StopPlayback").1, false, some "DTMF_DETECTED")
    else
      let s2 := (s1.command "RECORD FILE monitor wav \x22#\x22 500 0 2").1
      let voice := match e.monitorSize with
        | some n => decide (150 < n)
        | none => false
      if voice then
        let s3 := (s2.command "EXEC StopPlayback").1
        let s4 := (s3.command "RECORD FILE clean wav \x22#\x22 8000 0 2").1
        let transcript := match e.cleanSize with
          | some n => if 200 < n then e.asrText else ""
          | none => ""
        if transcript != "" && decide (2 < (pyStrip transcript).data.length) then
          (s4, false, some transcript)
        else
          (s4, false, some "VOICE_DETECTED")
      else
        playVILoop s2 rest

/-- `SimpleAGI.play_with_voice_interrupt` (`agi_interface.py` lines
108-204): strips the extension, starts background playback, then runs
the monitoring loop.  The result mirrors the source's pair: `(True,
None)` for uninterrupted completion, `(False, transcript)` for a voice
interruption, `(False, some "DTMF_DETECTED")` / `(False, some
"VOICE_DETECTED")` for the marker outcomes and `(False, none)` on
hangup. -/
def AGISession.play_with_voice_interrupt (s : AGISession) (filename : String)
    (envs : List FsEnv) : AGISession × Bool × Option String :=
  let f := stripExt filename
  playVILoop (s.command ("EXEC Background " ++ f)).1 envs

/-- `FastInterruptRecorder.get_user_input_with_interrupt`
(`agi_interface.py` lines 228-255): records, returns `none` if the call
disconnected, otherwise transcribes when the recorded file exceeds 300
bytes and returns `transcript.strip() if transcript else None`. -/
def get_user_input_with_interrupt (s : AGISession) (fileSize : Option Nat)
    (asrText : String) : AGISession × Option String :=
  let s1 := (s.command "RECORD FILE user wav \x22#\x22 10000 0 2").1
  if s1.agi.connected = false then
    (s1, none)
  else
    let transcript := match fileSize with
      | some n => if 300 < n then asrText else ""
      | none => ""
    (s1, if transcript != "" then some (pyStrip transcript) else none)

/-- One operation of the `SimpleAGI` API, bundled with the environment
data (file sizes, ASR output) its run consumes; transport replies come
from the session script. -/
inductive AgiOp where
  | opCommand (cmd : String)
  | opAnswer
  | opHangup
  | opStreamFile (name : String)
  | opRecordFile (name : String)
  | opPlayVI (name : String) (envs : List FsEnv)
deriving DecidableEq, Repr

/-- Run one `SimpleAGI` operation, keeping only the session state. -/
def execOp (s : AGISession) : AgiOp → AGISession
  | .opCommand c => (s.command c).1
  | .opAnswer => s.answer.1
  | .opHangup => s.hangup
  | .opStreamFile n => (s.stream_file n).1
  | .opRecordFile n => (s.record_file n).1
  | .opPlayVI n envs => (s.play_with_voice_interrupt n envs).1

/-- Run a sequence of `SimpleAGI` operations. -/
def execOps (s : AGISession) (ops : List AgiOp) : AGISession :=
  ops.foldl execOp s

/-- The VAD thresholds of `ProductionCallRecorder.__init__`
(`production_recorder.py` lines 49-55). -/
structure RecorderCfg where
  min_speech_bytes : Nat
  max_speech_bytes : Nat
  trailing_silence_checks : Nat
  guard_window_ms : Nat
deriving DecidableEq, Repr

/-- The thresholds the source constructs: 600 / 50000 / 6 / 800. -/
def defaultRecorderCfg : RecorderCfg := ⟨600, 50000, 6, 800⟩

/-- Mutable state of the trailing-silence polling loop of
`get_user_input_with_mixmonitor` (`production_recorder.py` lines 81-84).
`speech_start_ms` is meaningful only once `speech_started` holds (the
source uses `None` before that). -/
structure CaptureState where
  speech_started : Bool
  speech_start_ms : Nat
  last_size : Nat
  consecutive_no_growth : Nat
deriving DecidableEq, Repr

/-- The state the loop starts in (`production_recorder.py` lines 81-84). -/
def initCapture : CaptureState := ⟨false, 0, 0, 0⟩

/-- Why the polling loop stopped: the `while` deadline expired, the call
disconnected, trailing silence was detected, or the hard byte cap hit. -/
inductive CaptureExit where
  | timedOut
  | disconnected
  | trailingSilence
  | hardCap
deriving DecidableEq, Repr

/-- One body iteration of the polling loop (`production_recorder.py`
lines 93-130), at poll `k` (current time `k * 100` ms): probe the file
size, detect speech start (`> 300` bytes), reset the no-growth counter
inside the guard window, and after it count no-growth polls
(`current ≤ last + 50`) up to `trailing_silence_checks`, with the
`max_speech_bytes` hard cap checked after the growth bookkeeping. -/
def captureStep (cfg : RecorderCfg) (sizes : Nat → Option Nat) (k : Nat)
    (st : CaptureState) : Sum CaptureState CaptureExit :=
  match sizes k with
  | none => Sum.inl st
  | some current_size =>
    if st.speech_started = false ∧ 300 < current_size then
      Sum.inl ⟨true, k * 100, current_size, 0⟩
    else if st.speech_started = true then
      if k * 100 - st.speech_start_ms < cfg.guard_window_ms then
        Sum.inl ⟨true, st.speech_start_ms, current_size, 0⟩
      else
        if current_size ≤ st.last_size + 50 then
          if cfg.trailing_silence_checks ≤ st.consecutive_no_growth + 1 then
            Sum.inr CaptureExit.trailingSilence
          else if cfg.max_speech_bytes < current_size then
            Sum.inr CaptureExit.hardCap
          else
            Sum.inl ⟨true, st.speech_start_ms, st.last_size, st.consecutive_no_growth + 1⟩
        else
          if cfg.max_speech_bytes < current_size then
            Sum.inr CaptureExit.hardCap
          else
            Sum.inl ⟨true, st.speech_start_ms, current_size, 0⟩
    else
      Sum.inl st

/-- The polling `while` loop of `get_user_input_with_mixmonitor`
(`production_recorder.py` lines 86-132), from poll `k` on: it runs while
`k * 100 < timeoutMs` (the source's `time.time() - start_time < timeout`
with the idealised 100 ms cadence), breaks out when `connected` is
observed false, and otherwise runs `captureStep`.  Returns the poll at
which the loop stopped together with the reason. -/
def mixmonitorLoop (cfg : RecorderCfg) (conn : Nat → Bool) (sizes : Nat → Option Nat)
    (timeoutMs : Nat) (k : Nat) (st : CaptureState) : Nat × CaptureExit :=
  if h : k * 100 < timeoutMs then
    if conn k then
      match captureStep cfg sizes k st with
      | Sum.inl st2 => mixmonitorLoop cfg conn sizes timeoutMs (k + 1) st2
      | Sum.inr r => (k, r)
    else
      (k, CaptureExit.disconnected)
  else
    (k, CaptureExit.timedOut)
termination_by timeoutMs - k * 100
decreasing_by omega

/-- Pure iteration of `captureStep` over `n` polls starting at poll `k`,
used to describe the loop state poll by poll. -/
def captureIterFrom (cfg : RecorderCfg) (sizes : Nat → Option Nat) :
    Nat → Nat → CaptureState → Sum CaptureState CaptureExit
  | _, 0, st => Sum.inl st
  | k, n + 1, st =>
    match captureStep cfg sizes k st with
    | Sum.inl st2 => captureIterFrom cfg sizes (k + 1) n st2
    | Sum.inr r => Sum.inr r

/-- The byte size the Audio Probe reports for poll `k` (0 when the file
does not exist yet). -/
def probedSize (sizes : Nat → Option Nat) (k : Nat) : Nat :=
  (sizes k).getD 0

/-- The Whisper artifact strings removed by `_clean_transcript`
(`whisper_asr_client.py` lines 201-211). -/
def whisperArtifacts : List String :=
  ["Thank you for watching!", "Thanks for watching!", "Subscribe to my channel!",
   "Please like and subscribe", "♪", "♫", "[Music]", "[music]", "[MUSIC]"]

/-- The artifact-removal pass of `_clean_transcript`: each artifact is
replaced by the empty string and the result stripped, in order. -/
def removeArtifacts (s : String) : String :=
  whisperArtifacts.foldl (fun acc a => pyStrip (pyReplace acc a "")) s

/-- `WhisperASRClient._clean_transcript` (`whisper_asr_client.py` lines
191-230): strip, collapse whitespace, remove artifacts, unwrap a fully
quoted text, capitalise a lowercase first letter, and drop a trailing
period on texts of fewer than three words. -/
def clean_transcript (text : String) : String :=
  if text = "" then ""
  else
    let cleaned := normSpace (pyStrip text)
    let cleaned := removeArtifacts cleaned
    let cleaned :=
      if 2 < cleaned.data.length then
        if (startsWithL cleaned "\x22" && endsWithL cleaned "\x22")
            || (startsWithL cleaned "\x27" && endsWithL cleaned "\x27") then
          pyStrip (String.mk (cleaned.data.drop 1).dropLast)
        else cleaned
      else cleaned
    let cleaned :=
      match cleaned.data with
      | [] => cleaned
      | ch :: _ => if ch.isLower then String.mk (ch.toUpper :: cleaned.data.drop 1) else cleaned
    if endsWithL cleaned "." && decide ((pySplit cleaned).length < 3) then
      String.mk cleaned.data.dropLast
    else cleaned

/-- Environment of one `transcribe_file` call: size of the input audio
file (`none` = it does not exist), size of the file sox produces
(`none` = sox failed or raised), and the text field of the Whisper
result (`none` = the model raised). -/
structure TranscribeEnv where
  fileSize : Option Nat
  soxOutSize : Option Nat
  whisperText : Option String
deriving DecidableEq, Repr

/-- `WhisperASRClient._validate_audio_file` (`whisper_asr_client.py`
lines 54-67): the file must exist and hold at least 100 bytes. -/
def validate_audio_file (size? : Option Nat) : Bool :=
  match size? with
  | none => false
  | some n => decide (100 ≤ n)

/-- `WhisperASRClient._convert_audio_for_whisper` (`whisper_asr_client.py`
lines 69-114): sox must succeed and the converted file must validate;
otherwise the conversion reports failure (`none`). -/
def convert_audio_for_whisper (env : TranscribeEnv) : Option Nat :=
  match env.soxOutSize with
  | none => none
  | some m => if validate_audio_file (some m) then some m else none

/-- `WhisperASRClient.transcribe_file` (`whisper_asr_client.py` lines
116-189): validate, convert, transcribe, then strip and clean the
transcript; every failure path — missing or too-small file, failed
conversion, a raising model (caught by the `except` handler), an empty
or cleaned-to-empty transcript — returns the empty string. -/
def transcribe_file (env : TranscribeEnv) : String :=
  if validate_audio_file env.fileSize = false then ""
  else
    match convert_audio_for_whisper env with
    | none => ""
    | some _ =>
      match env.whisperText with
      | none => ""
      | some raw =>
        let transcript := pyStrip raw
        if transcript = "" then ""
        else
          let cleaned := clean_transcript transcript
          if cleaned = "" then "" else cleaned

/-- Following the spec's wire format (a reply is a numeric status
followed by `result=<value>`): a reply whose result value is a negative
integer.  This renders the spec's words "a reply indicating a negative
result code"; it exists to compare the spec's predicate with the
source's literal `startswith('200 result=-1')` check. -/
def specNegativeResult (s : String) : Bool :=
  startsWithL s "200 result=-" &&
    match s.data.drop 12 with
    | c :: _ => c.isDigit
    | [] => false

/-- Lowercased, whitespace-normalised rendering of a text, following the
spec's "normalized token-overlap" comparison (spec 4.4). -/
def specNormText (s : String) : String :=
  normSpace (pyLower s)

/-- The word set of a text for the spec's Jaccard comparison. -/
def specWords (s : String) : List String :=
  (pySplit (pyLower s)).dedup

/-- Jaccard similarity of two word sets is at least 0.65, in exact
arithmetic: `|A ∩ B| / |A ∪ B| ≥ 13/20`. -/
def specJaccardGE65 (a b : List String) : Bool :=
  let i := (a.filter (fun w => w ∈ b)).length
  let u := (a ++ b.filter (fun w => w ∉ a)).length
  decide (13 * u ≤ 20 * i)

/-- Following the spec's words (spec 4.4): the captured transcript is a
self-echo false positive when, after normalisation, one string is a
substring of the other or the Jaccard similarity of the word sets is at
least the 0.65 threshold.  No function of the repository implements
this; the definition exists to state the self-echo claim against the
source's actual behaviour. -/
def specSelfEchoFalsePositive (agentText transcript : String) : Bool :=
  let a := specNormText agentText
  let b := specNormText transcript
  strContains a b || strContains b a || specJaccardGE65 (specWords agentText) (specWords transcript)

/-! Helper lemmas about the control channel. -/

theorem SimpleAGI.command_some_snd (a : SimpleAGI) (cmd line : String) :
    (SimpleAGI.command a cmd (some line)).2 = pyStrip line := by
  simp only [SimpleAGI.command]
  split <;> rfl

theorem SimpleAGI.command_stays_disconnected (a : SimpleAGI) (cmd : String)
    (reply : Option String) (h : a.connected = false) :
    ((SimpleAGI.command a cmd reply).1).connected = false := by
  cases reply with
  | none => rfl
  | some line =>
    simp only [SimpleAGI.command]
    split
    · rfl
    · exact h

theorem SimpleAGI.command_answered_unchanged (a : SimpleAGI) (cmd : String)
    (reply : Option String) :
    ((SimpleAGI.command a cmd reply).1).call_answered = a.call_answered := by
  cases reply with
  | none => rfl
  | some line =>
    simp only [SimpleAGI.command]
    split <;> rfl

theorem AGISession.command_cons (a : SimpleAGI) (sent : List String)
    (r : Option String) (rest : List (Option String)) (cmd : String) :
    AGISession.command ⟨a, sent, r :: rest⟩ cmd =
      (⟨(SimpleAGI.command a cmd r).1, sent ++ [cmd], rest⟩,
        (SimpleAGI.command a cmd r).2) := rfl

theorem AGISession.command_connected_false (s : AGISession) (cmd : String)
    (h : s.agi.connected = false) :
    ((AGISession.command s cmd).1).agi.connected = false := by
  obtain ⟨a, sent, replies⟩ := s
  cases replies with
  | nil => exact SimpleAGI.command_stays_disconnected a cmd (some "") h
  | cons r rest => exact SimpleAGI.command_stays_disconnected a cmd r h

theorem AGISession.command_call_answered (s : AGISession) (cmd : String) :
    ((AGISession.command s cmd).1).agi.call_answered = s.agi.call_answered := by
  obtain ⟨a, sent, replies⟩ := s
  cases replies with
  | nil => exact SimpleAGI.command_answered_unchanged a cmd (some "")
  | cons r rest => exact SimpleAGI.command_answered_unchanged a cmd r

/-! Claim C7: transport errors never escape `command`. -/

/-- C7.  Transport errors never escape as exceptions: for every AGI state
and every command text, when the underlying write or read raises,
`SimpleAGI.command` catches the exception, marks `connected = false`,
and returns the synthetic reply `"ERROR"`; no exception crosses the API
boundary (the embedding of the raising run is the `none` transport case,
and the function is total). -/
theorem command_io_failure (a : SimpleAGI) (cmd : String) :
    SimpleAGI.command a cmd none = (⟨false, a.call_answered⟩, "ERROR") := rfl

/-! Claim C6: hangup inference inside `command`. -/

/-- C6 counterexample.  The reply `"200 result=-2"` indicates a negative
result code in the spec's wire format, yet `SimpleAGI.command` leaves
`connected = true` on it: the source only tests the literal prefix
`200 result=-1` (and the `hangup` token), so the claim as stated fails. -/
theorem command_negative_result_counterexample :
    specNegativeResult "200 result=-2" = true ∧
      (SimpleAGI.command ⟨true, false⟩ "WAIT FOR DIGIT 1000"
        (some "200 result=-2")).1.connected = true := by
  constructor
  · decide
  · decide

/-- C6 (amended).  Hangup inference: for every command sent through
`SimpleAGI.command`, any reply line that (after stripping) starts with
the literal `200 result=-1`, or contains the token `hangup`
case-insensitively, causes `connected` to be set false as a side effect
of `command` itself, regardless of which higher-level operation issued
the command. -/
theorem command_hangup_inference (a : SimpleAGI) (cmd line : String)
    (h : startsWithL (pyStrip line) "200 result=-1" = true ∨
      strContains (pyLower (pyStrip line)) "hangup" = true) :
    (SimpleAGI.command a cmd (some line)).1.connected = false := by
  rcases h with h | h <;> simp [SimpleAGI.command, h]

/-- C6 witness: a concrete hangup reply flips `connected`. -/
theorem command_hangup_inference_witness :
    (SimpleAGI.command ⟨true, false⟩ "GET DATA beep 5000 4"
      (some "HANGUP during command")).1.connected = false :=
  command_hangup_inference ⟨true, false⟩ "GET DATA beep 5000 4"
    "HANGUP during command" (Or.inr (by decide))

/-! Claim C9: totality of `transcribe_file`. -/

/-- C9.  Speech-to-text totality: `transcribe_file` is a total function
into plain strings (no exception crosses its boundary; raising
collaborators are the `none` environment cases, absorbed by its
handlers), and on every failure input — the audio file does not exist,
is too small to be viable (under 100 bytes), cannot be converted, the
model raises, or the recognised text strips to nothing — it returns the
empty string, the callers' "no speech detected" value. -/
theorem transcribe_file_total_empty (env : TranscribeEnv)
    (h : env.fileSize = none
      ∨ (∃ n, env.fileSize = some n ∧ n < 100)
      ∨ convert_audio_for_whisper env = none
      ∨ env.whisperText = none
      ∨ (∃ t, env.whisperText = some t ∧ pyStrip t = "")) :
    transcribe_file env = "" := by
  unfold transcribe_file
  rcases h with h | ⟨n, hn, hlt⟩ | h | h | ⟨t, ht, htr⟩
  · simp [h, validate_audio_file]
  · have hv : validate_audio_file env.fileSize = false := by
      simp [hn, validate_audio_file]
      omega
    simp [hv]
  · by_cases hv : validate_audio_file env.fileSize = false
    · simp [hv]
    · simp [hv, h]
  · by_cases hv : validate_audio_file env.fileSize = false
    · simp [hv]
    · cases hc : convert_audio_for_whisper env with
      | none => simp [hv, hc]
      | some m => simp [hv, hc, h]
  · by_cases hv : validate_audio_file env.fileSize = false
    · simp [hv]
    · cases hc : convert_audio_for_whisper env with
      | none => simp [hv, hc]
      | some m => simp [hv, hc, ht, htr]

/-- C9 witness: a missing audio file transcribes to the empty string. -/
theorem transcribe_file_total_empty_witness :
    transcribe_file ⟨none, none, none⟩ = "" :=
  transcribe_file_total_empty ⟨none, none, none⟩ (Or.inl rfl)

/-! Claim C10: the fast interrupt recorder's return value. -/

/-- C10 counterexample.  `get_user_input_with_interrupt` can return the
empty string: with the call still connected, a clean record reply, a
404-byte recording and an ASR transcript `" "` (non-empty but
whitespace-only), the source's `transcript.strip() if transcript else
None` yields `""`, not `None` and not a non-empty transcript. -/
theorem get_user_input_empty_counterexample :
    (get_user_input_with_interrupt ⟨⟨true, false⟩, [], [some "200 result=0"]⟩
      (some 404) " ").2 = some "" := by decide

/-- C10 (amended).  `get_user_input_with_interrupt` returns either
`none` or the whitespace-stripped ASR transcript of a non-empty ASR
result — so the empty string is returned exactly when the ASR produced
a non-empty, all-whitespace transcript; it returns `none` whenever the
call has disconnected after recording, the recording file is absent, or
the recorded file size is at most the 300-byte threshold. -/
theorem get_user_input_with_interrupt_amended (s : AGISession) (sz : Option Nat)
    (t : String) :
    ((get_user_input_with_interrupt s sz t).2 = none ∨
      ((get_user_input_with_interrupt s sz t).2 = some (pyStrip t) ∧ t ≠ "")) ∧
    (((AGISession.command s "RECORD FILE user wav \x22#\x22 10000 0 2").1.agi.connected
        = false) → (get_user_input_with_interrupt s sz t).2 = none) ∧
    (sz = none → (get_user_input_with_interrupt s sz t).2 = none) ∧
    (∀ n, sz = some n → n ≤ 300 → (get_user_input_with_interrupt s sz t).2 = none) := by
  unfold get_user_input_with_interrupt
  by_cases hc : (AGISession.command s "RECORD FILE user wav \x22#\x22 10000 0 2").1.agi.connected = false
  · simp [hc]
  · refine ⟨?_, ?_, ?_, ?_⟩
    · cases sz with
      | none => simp [hc]
      | some n =>
        by_cases hn : 300 < n
        · by_cases ht : t = ""
          · simp [hc, hn, ht]
          · simp only [hc, if_false, hn, if_true]
            right
            simp [ht]
        · simp [hc, hn]
    · intro h
      exact absurd h hc
    · intro h
      simp [hc, h]
    · intro n hsz hn
      have : ¬ 300 < n := by omega
      simp [hc, hsz, this]

/-- C10 witness: with a 404-byte recording and transcript
`" yes please "` the stripped transcript comes back; the `none` cases
are exercised at file size 100. -/
theorem get_user_input_with_interrupt_amended_witness :
    ((get_user_input_with_interrupt ⟨⟨true, false⟩, [], [some "200 result=0"]⟩
        (some 404) " yes please ").2 = none ∨
      ((get_user_input_with_interrupt ⟨⟨true, false⟩, [], [some "200 result=0"]⟩
        (some 404) " yes please ").2 = some (pyStrip " yes please ") ∧
        " yes please " ≠ "")) ∧
    (((AGISession.command ⟨⟨true, false⟩, [], [some "200 result=0"]⟩
        "RECORD FILE user wav \x22#\x22 10000 0 2").1.agi.connected = false) →
      (get_user_input_with_interrupt ⟨⟨true, false⟩, [], [some "200 result=0"]⟩
        (some 404) " yes please ").2 = none) ∧
    ((some 404 : Option Nat) = none →
      (get_user_input_with_interrupt ⟨⟨true, false⟩, [], [some "200 result=0"]⟩
        (some 404) " yes please ").2 = none) ∧
    (∀ n, (some 404 : Option Nat) = some n → n ≤ 300 →
      (get_user_input_with_interrupt ⟨⟨true, false⟩, [], [some "200 result=0"]⟩
        (some 404) " yes please ").2 = none) :=
  get_user_input_with_interrupt_amended ⟨⟨true, false⟩, [], [some "200 result=0"]⟩
    (some 404) " yes please "

/-! Claim C4: self-echo filtering during barge-in playback. -/

/-- C4 counterexample.  The spec's self-echo filter classifies the pair
(agent text `"Thank you for calling"`, detected transcript
`"thank you for calling"`) as a false positive that must not activate —
yet `play_with_voice_interrupt`, on a run that detects voice (500-byte
monitor window) and transcribes that very text, returns it as an
activated interruption: the source never compares the transcript with
the text being spoken. -/
theorem self_echo_counterexample :
    specSelfEchoFalsePositive "Thank you for calling" "thank you for calling" = true ∧
      (AGISession.play_with_voice_interrupt
        ⟨⟨true, false⟩, [],
          [some "200 result=1", some "200 result=0", some "200 result=1",
            some "200 result=1", some "200 result=1"]⟩
        "greeting" [⟨some 500, some 500, "thank you for calling"⟩]).2 =
        (false, some "thank you for calling") := by
  constructor
  · decide
  · decide

/-- C4 (amended).  `play_with_voice_interrupt` receives no agent text
and performs no transcript comparison at all: on any iteration where
playback is still running (`200 result=0` option poll), the monitor
recording exceeds 150 bytes, the clean recording exceeds 200 bytes and
the ASR transcript strips to more than 2 characters, the transcript is
returned as an activated interruption — for every transcript, including
one identical to the text the agent is speaking.  (Transcripts of
stripped length at most 2 are demoted to the `VOICE_DETECTED` marker.) -/
theorem play_with_voice_interrupt_no_echo_filter
    (a : SimpleAGI) (sent : List String) (filename : String)
    (rBg rRec rStop rClean : Option String) (g : String)
    (more : List (Option String)) (m c : Nat) (t : String) (rest : List FsEnv)
    (hg : pyStrip g = "" ∨ startsWithL (pyStrip g) "200 result=0" = true)
    (hm : 150 < m) (hc : 200 < c) (ht : t ≠ "")
    (hlen : 2 < (pyStrip t).data.length) :
    (AGISession.play_with_voice_interrupt
      ⟨a, sent, rBg :: some g :: rRec :: rStop :: rClean :: more⟩ filename
      (⟨some m, some c, t⟩ :: rest)).2 = (false, some t) := by
  have hlen2 : 2 < (pyStrip t).length := hlen
  rcases hg with hg | hg <;>
  · simp only [AGISession.play_with_voice_interrupt, playVILoop, AGISession.command,
      SimpleAGI.command_some_snd, hg]
    simp [hm, hc, ht, hlen2, bne_iff_ne]


/-- C4 witness: matching the spec's positive example, the transcript
`"I need help with my printer"` (low overlap with the agent text) is
returned as an activated interruption. -/
theorem play_with_voice_interrupt_no_echo_filter_witness :
    (AGISession.play_with_voice_interrupt
      ⟨⟨true, false⟩, [],
        (some "200 result=1") :: (some "200 result=0") :: (some "200 result=1") ::
          (some "200 result=1") :: (some "200 result=1") :: []⟩ "greeting"
      (⟨some 500, some 500, "I need help with my printer"⟩ :: [])).2 =
      (false, some "I need help with my printer") :=
  play_with_voice_interrupt_no_echo_filter ⟨true, false⟩ [] "greeting"
    (some "200 result=1") (some "200 result=1") (some "200 result=1")
    (some "200 result=1") "200 result=0" [] 500 500 "I need help with my printer" []
    (Or.inr (by decide)) (by decide) (by decide) (by decide) (by decide)

/-! Claim C8: idempotent `answer`. -/

theorem AGISession.command_sent (s : AGISession) (cmd : String) :
    (AGISession.command s cmd).1.sent = s.sent ++ [cmd] := by
  obtain ⟨a, sent, replies⟩ := s
  cases replies <;> rfl

/-- The number of times verb `v` was sent. -/
def countVerb (l : List String) (v : String) : Nat :=
  (l.filter (fun x => x = v)).length

theorem countVerb_append (l m : List String) (v : String) :
    countVerb (l ++ m) v = countVerb l v + countVerb m v := by
  simp [countVerb, List.filter_append]

/-- One `answer` run sends `CHANNEL STATUS` and then at most one
`ANSWER`. -/
theorem AGISession.answer_sent (s : AGISession) :
    (AGISession.answer s).1.sent = s.sent ++ ["CHANNEL STATUS"] ∨
    (AGISession.answer s).1.sent = s.sent ++ ["CHANNEL STATUS", "ANSWER"] := by
  simp only [AGISession.answer]
  split
  · left
    exact AGISession.command_sent s "CHANNEL STATUS"
  · split
    · right
      rw [AGISession.command_sent, AGISession.command_sent]
      simp
    · right
      rw [AGISession.command_sent, AGISession.command_sent]
      simp

/-- A failed `answer` leaves `call_answered` unchanged. -/
theorem AGISession.answer_call_answered_of_failed (u : AGISession)
    (h : (AGISession.answer u).2 = false) :
    (AGISession.answer u).1.agi.call_answered = u.agi.call_answered := by
  revert h
  simp only [AGISession.answer]
  split
  · intro h
    simp at h
  · split
    · intro h
      simp at h
    · intro _
      rw [AGISession.command_call_answered, AGISession.command_call_answered]

/-- C8.  Idempotent answer: when the channel-status query of a second
`answer` call reports the call already answered (`result=6`), that call
returns success, sets the answered flag, and issues no `ANSWER` command
(its sent log grows by `CHANNEL STATUS` only); hence calling `answer`
twice in sequence when the first call succeeded sends at most one live
`ANSWER` command in total.  Moreover `call_answered` is set true only on
success: a failed `answer` leaves it unchanged. -/
theorem answer_idempotent (s : AGISession) (str2 : String) (rest : List (Option String))
    (hfirst : (AGISession.answer s).2 = true)
    (hreplies : (AGISession.answer s).1.replies = some str2 :: rest)
    (h6 : strContains (pyStrip str2) "result=6" = true) :
    (AGISession.answer (AGISession.answer s).1).2 = true ∧
    (AGISession.answer (AGISession.answer s).1).1.agi.call_answered = true ∧
    (AGISession.answer (AGISession.answer s).1).1.sent =
      (AGISession.answer s).1.sent ++ ["CHANNEL STATUS"] ∧
    countVerb (AGISession.answer (AGISession.answer s).1).1.sent "ANSWER" ≤
      countVerb s.sent "ANSWER" + 1 ∧
    (∀ u : AGISession, (AGISession.answer u).2 = false →
      (AGISession.answer u).1.agi.call_answered = u.agi.call_answered) := by
  have hsent1 := AGISession.answer_sent s
  set s1 := (AGISession.answer s).1 with hs1
  have hsecond : AGISession.answer s1 =
      (⟨⟨(SimpleAGI.command s1.agi "CHANNEL STATUS" (some str2)).1.connected, true⟩,
        s1.sent ++ ["CHANNEL STATUS"], rest⟩, true) := by
    obtain ⟨a1, sent1, rep1⟩ := s1
    simp only at hreplies
    subst hreplies
    simp only [AGISession.answer, AGISession.command_cons, SimpleAGI.command_some_snd, h6,
      if_true]
  refine ⟨?_, ?_, ?_, ?_, ?_⟩
  · rw [hsecond]
  · rw [hsecond]
  · rw [hsecond]
  · rw [hsecond]
    rcases hsent1 with h | h <;>
    · simp only [h, countVerb_append]
      simp [countVerb]
  · intro u hu
    exact AGISession.answer_call_answered_of_failed u hu

/-- C8 witness: a first `answer` that succeeds by issuing `ANSWER`,
followed by a second `answer` whose status query reports `result=6`. -/
theorem answer_idempotent_witness :
    (AGISession.answer (AGISession.answer
      ⟨⟨true, false⟩, [], [some "200 result=4", some "200 result=0",
        some "200 result=6"]⟩).1).2 = true ∧
    (AGISession.answer (AGISession.answer
      ⟨⟨true, false⟩, [], [some "200 result=4", some "200 result=0",
        some "200 result=6"]⟩).1).1.agi.call_answered = true ∧
    (AGISession.answer (AGISession.answer
      ⟨⟨true, false⟩, [], [some "200 result=4", some "200 result=0",
        some "200 result=6"]⟩).1).1.sent =
      (AGISession.answer ⟨⟨true, false⟩, [], [some "200 result=4",
        some "200 result=0", some "200 result=6"]⟩).1.sent ++ ["CHANNEL STATUS"] ∧
    countVerb (AGISession.answer (AGISession.answer
      ⟨⟨true, false⟩, [], [some "200 result=4", some "200 result=0",
        some "200 result=6"]⟩).1).1.sent "ANSWER" ≤
      countVerb ([] : List String) "ANSWER" + 1 ∧
    (∀ u : AGISession, (AGISession.answer u).2 = false →
      (AGISession.answer u).1.agi.call_answered = u.agi.call_answered) :=
  answer_idempotent ⟨⟨true, false⟩, [], [some "200 result=4", some "200 result=0",
      some "200 result=6"]⟩ "200 result=6" []
    (by decide) (by decide) (by decide)

/-! Claim C1: hangup monotonicity. -/

theorem playVILoop_connected_false (envs : List FsEnv) :
    ∀ s : AGISession, s.agi.connected = false →
      ((playVILoop s envs).1).agi.connected = false := by
  induction envs with
  | nil => intro s h; exact h
  | cons e rest ih =>
    intro s h
    have h1 : ((s.command "GET OPTION \x22\x22 100").1).agi.connected = false :=
      AGISession.command_connected_false _ _ h
    simp only [playVILoop]
    split
    · split
      · rfl
      · exact AGISession.command_connected_false _ _ h1
    · split
      · split <;>
          exact AGISession.command_connected_false _ _
            (AGISession.command_connected_false _ _
              (AGISession.command_connected_false _ _ h1))
      · exact ih _ (AGISession.command_connected_false _ _ h1)

theorem execOp_connected_false (s : AGISession) (op : AgiOp)
    (h : s.agi.connected = false) : (execOp s op).agi.connected = false := by
  cases op with
  | opCommand c => exact AGISession.command_connected_false s c h
  | opAnswer =>
    show (AGISession.answer s).1.agi.connected = false
    simp only [AGISession.answer]
    split
    · exact AGISession.command_connected_false _ _ h
    · split
      · exact AGISession.command_connected_false _ _
          (AGISession.command_connected_false _ _ h)
      · exact AGISession.command_connected_false _ _
          (AGISession.command_connected_false _ _ h)
  | opHangup => rfl
  | opStreamFile n => exact AGISession.command_connected_false _ _ h
  | opRecordFile n =>
    show (AGISession.record_file s n).1.agi.connected = false
    simp only [AGISession.record_file]
    split
    · rfl
    · exact AGISession.command_connected_false _ _ h
  | opPlayVI n envs =>
    exact playVILoop_connected_false envs _ (AGISession.command_connected_false _ _ h)

/-- C1.  Hangup monotonicity: for every sequence of `SimpleAGI`
operations — `command`, `answer`, `hangup`, `stream_file`,
`record_file`, `play_with_voice_interrupt` — and every transport and
filesystem script, once `connected` is false it stays false forever; no
operation ever sets it back to true (`connected` is true only at
construction, `SimpleAGI.init`). -/
theorem hangup_monotonic (s : AGISession) (ops : List AgiOp)
    (h : s.agi.connected = false) : (execOps s ops).agi.connected = false := by
  induction ops generalizing s with
  | nil => exact h
  | cons op rest ih =>
    simp only [execOps, List.foldl_cons]
    exact ih (execOp s op) (execOp_connected_false s op h)

/-- C1 witness: a disconnected session stays disconnected across a run
of every kind of operation. -/
theorem hangup_monotonic_witness :
    (execOps ⟨⟨false, false⟩, [],
        [some "200 result=6", some "200 result=0", some "200 result=1"]⟩
      [AgiOp.opAnswer, AgiOp.opCommand "VERBOSE \x22hi\x22",
        AgiOp.opStreamFile "greet.wav", AgiOp.opRecordFile "user1",
        AgiOp.opPlayVI "menu" [⟨some 200, some 300, "hello there"⟩],
        AgiOp.opHangup]).agi.connected = false :=
  hangup_monotonic ⟨⟨false, false⟩, [],
      [some "200 result=6", some "200 result=0", some "200 result=1"]⟩
    [AgiOp.opAnswer, AgiOp.opCommand "VERBOSE \x22hi\x22",
      AgiOp.opStreamFile "greet.wav", AgiOp.opRecordFile "user1",
      AgiOp.opPlayVI "menu" [⟨some 200, some 300, "hello there"⟩],
      AgiOp.opHangup] rfl

/-! Infrastructure for the polling-loop claims: unfolding the loop,
relating it to pure step iteration, and phase lemmas. -/

theorem mixmonitorLoop_eq (cfg : RecorderCfg) (conn : Nat → Bool) (sizes : Nat → Option Nat)
    (timeoutMs k : Nat) (st : CaptureState) :
    mixmonitorLoop cfg conn sizes timeoutMs k st =
      if k * 100 < timeoutMs then
        if conn k then
          match captureStep cfg sizes k st with
          | Sum.inl st2 => mixmonitorLoop cfg conn sizes timeoutMs (k + 1) st2
          | Sum.inr r => (k, r)
        else
          (k, CaptureExit.disconnected)
      else
        (k, CaptureExit.timedOut) := by
  rw [mixmonitorLoop]
  split <;> rename_i h <;> simp [h]

theorem mixmonitorLoop_of_iterFrom (cfg : RecorderCfg) (conn : Nat → Bool)
    (sizes : Nat → Option Nat) (timeoutMs : Nat) :
    ∀ (n k : Nat) (st st2 : CaptureState),
      (∀ j, k ≤ j → j < k + n → j * 100 < timeoutMs ∧ conn j = true) →
      captureIterFrom cfg sizes k n st = Sum.inl st2 →
      mixmonitorLoop cfg conn sizes timeoutMs k st =
        mixmonitorLoop cfg conn sizes timeoutMs (k + n) st2 := by
  intro n
  induction n with
  | zero =>
    intro k st st2 _ hiter
    simp only [captureIterFrom] at hiter
    cases hiter
    rfl
  | succ n ih =>
    intro k st st2 hcond hiter
    simp only [captureIterFrom] at hiter
    cases hstep : captureStep cfg sizes k st with
    | inl st1 =>
      simp only [hstep] at hiter
      have hk := hcond k (Nat.le_refl k) (by omega)
      rw [mixmonitorLoop_eq, if_pos hk.1, if_pos hk.2, hstep]
      show mixmonitorLoop cfg conn sizes timeoutMs (k + 1) st1 =
        mixmonitorLoop cfg conn sizes timeoutMs (k + (n + 1)) st2
      have := ih (k + 1) st1 st2 (fun j h1 h2 => hcond j (by omega) (by omega)) hiter
      rw [this]
      congr 1
      omega
    | inr r =>
      simp only [hstep] at hiter
      exact absurd hiter (by simp)

theorem mixmonitorLoop_exit (cfg : RecorderCfg) (conn : Nat → Bool)
    (sizes : Nat → Option Nat) (timeoutMs : Nat) (n : Nat) (st st2 : CaptureState)
    (r : CaptureExit)
    (hcond : ∀ j, j ≤ n → j * 100 < timeoutMs ∧ conn j = true)
    (hiter : captureIterFrom cfg sizes 0 n st = Sum.inl st2)
    (hstep : captureStep cfg sizes n st2 = Sum.inr r) :
    mixmonitorLoop cfg conn sizes timeoutMs 0 st = (n, r) := by
  have h1 := mixmonitorLoop_of_iterFrom cfg conn sizes timeoutMs n 0 st st2
    (fun j hj1 hj2 => hcond j (by omega)) hiter
  rw [Nat.zero_add] at h1
  rw [h1, mixmonitorLoop_eq, if_pos (hcond n (Nat.le_refl n)).1,
    if_pos (hcond n (Nat.le_refl n)).2, hstep]

theorem captureIterFrom_add_inl (cfg : RecorderCfg) (sizes : Nat → Option Nat)
    (m : Nat) :
    ∀ (n k : Nat) (st st1 : CaptureState),
      captureIterFrom cfg sizes k m st = Sum.inl st1 →
      captureIterFrom cfg sizes k (m + n) st = captureIterFrom cfg sizes (k + m) n st1 := by
  induction m with
  | zero =>
    intro n k st st1 h
    simp only [captureIterFrom] at h
    cases h
    simp
  | succ m ih =>
    intro n k st st1 h
    simp only [captureIterFrom] at h ⊢
    cases hstep : captureStep cfg sizes k st with
    | inl u =>
      simp only [hstep] at h ⊢
      have e : m + 1 + n = m + n + 1 := by omega
      rw [e]
      simp only [captureIterFrom, hstep]
      rw [ih n (k + 1) u st1 h]
      congr 1
      omega
    | inr r =>
      simp only [hstep] at h
      exact absurd h (by simp)

theorem captureIterFrom_pre (cfg : RecorderCfg) (sizes : Nat → Option Nat) :
    ∀ (n k : Nat),
      (∀ j, k ≤ j → j < k + n → sizes j = none ∨ ∃ v, sizes j = some v ∧ v ≤ 300) →
      captureIterFrom cfg sizes k n initCapture = Sum.inl initCapture := by
  intro n
  induction n with
  | zero => intro k _; rfl
  | succ n ih =>
    intro k hsz
    have hstep : captureStep cfg sizes k initCapture = Sum.inl initCapture := by
      rcases hsz k (Nat.le_refl k) (by omega) with h | ⟨v, hv, hle⟩
      · simp [captureStep, h]
      · have h1 : ¬ (initCapture.speech_started = false ∧ 300 < v) := by
          intro hcontra
          exact absurd hcontra.2 (by omega)
        have h2 : ¬ (initCapture.speech_started = true) := by
          intro hcontra
          exact Bool.false_ne_true hcontra
        simp only [captureStep, hv]
        rw [if_neg h1, if_neg h2]
    simp only [captureIterFrom, hstep]
    exact ih (k + 1) (fun j h1 h2 => hsz j (by omega) (by omega))

theorem captureStep_start (cfg : RecorderCfg) (sizes : Nat → Option Nat)
    (k v : Nat) (h : sizes k = some v) (hv : 300 < v) :
    captureStep cfg sizes k initCapture = Sum.inl ⟨true, k * 100, v, 0⟩ := by
  simp [captureStep, h, initCapture, hv]

theorem captureStep_guard (cfg : RecorderCfg) (sizes : Nat → Option Nat)
    (j sms w v : Nat) (hs : sizes j = some v)
    (hg : j * 100 - sms < cfg.guard_window_ms) :
    captureStep cfg sizes j ⟨true, sms, w, 0⟩ = Sum.inl ⟨true, sms, v, 0⟩ := by
  simp [captureStep, hs, hg]

theorem captureIterFrom_guard (cfg : RecorderCfg) (sizes : Nat → Option Nat)
    (sms : Nat) :
    ∀ (n k w0 : Nat),
      (∀ j, k ≤ j → j < k + n → j * 100 - sms < cfg.guard_window_ms) →
      ∃ w, captureIterFrom cfg sizes k n ⟨true, sms, w0, 0⟩ =
        Sum.inl ⟨true, sms, w, 0⟩ := by
  intro n
  induction n with
  | zero => intro k w0 _; exact ⟨w0, rfl⟩
  | succ n ih =>
    intro k w0 hg
    cases hs : sizes k with
    | none =>
      have hstep : captureStep cfg sizes k ⟨true, sms, w0, 0⟩ =
          Sum.inl ⟨true, sms, w0, 0⟩ := by
        simp [captureStep, hs]
      obtain ⟨w, hw⟩ := ih (k + 1) w0 (fun j h1 h2 => hg j (by omega) (by omega))
      exact ⟨w, by simp only [captureIterFrom, hstep]; exact hw⟩
    | some v =>
      have hstep := captureStep_guard cfg sizes k sms w0 v hs
        (hg k (Nat.le_refl k) (by omega))
      obtain ⟨w, hw⟩ := ih (k + 1) v (fun j h1 h2 => hg j (by omega) (by omega))
      exact ⟨w, by simp only [captureIterFrom, hstep]; exact hw⟩

theorem captureIterFrom_guard_const (cfg : RecorderCfg) (sizes : Nat → Option Nat)
    (sms L : Nat) :
    ∀ (n k w0 : Nat), 1 ≤ n →
      (∀ j, k ≤ j → j < k + n → sizes j = some L) →
      (∀ j, k ≤ j → j < k + n → j * 100 - sms < cfg.guard_window_ms) →
      captureIterFrom cfg sizes k n ⟨true, sms, w0, 0⟩ = Sum.inl ⟨true, sms, L, 0⟩ := by
  intro n
  induction n with
  | zero => intro k w0 h; omega
  | succ n ih =>
    intro k w0 _ hsz hg
    have hstep := captureStep_guard cfg sizes k sms w0 L
      (hsz k (Nat.le_refl k) (by omega)) (hg k (Nat.le_refl k) (by omega))
    cases n with
    | zero => simp only [captureIterFrom, hstep]
    | succ n =>
      simp only [captureIterFrom, hstep]
      exact ih (k + 1) L (by omega) (fun j h1 h2 => hsz j (by omega) (by omega))
        (fun j h1 h2 => hg j (by omega) (by omega))

theorem captureStep_silence (cfg : RecorderCfg) (sizes : Nat → Option Nat)
    (j sms L c : Nat) (hs : sizes j = some L)
    (hg : cfg.guard_window_ms ≤ j * 100 - sms)
    (hc : c + 1 < cfg.trailing_silence_checks)
    (hcap : L ≤ cfg.max_speech_bytes) :
    captureStep cfg sizes j ⟨true, sms, L, c⟩ = Sum.inl ⟨true, sms, L, c + 1⟩ := by
  have h1 : ¬ (j * 100 - sms < cfg.guard_window_ms) := by omega
  have h2 : ¬ (cfg.trailing_silence_checks ≤ c + 1) := by omega
  have h3 : ¬ (cfg.max_speech_bytes < L) := by omega
  simp [captureStep, hs, h1, h2, h3]

theorem captureIterFrom_silence (cfg : RecorderCfg) (sizes : Nat → Option Nat)
    (sms L : Nat) :
    ∀ (n k c0 : Nat),
      (∀ j, k ≤ j → j < k + n → sizes j = some L) →
      (∀ j, k ≤ j → j < k + n → cfg.guard_window_ms ≤ j * 100 - sms) →
      c0 + n < cfg.trailing_silence_checks → L ≤ cfg.max_speech_bytes →
      captureIterFrom cfg sizes k n ⟨true, sms, L, c0⟩ =
        Sum.inl ⟨true, sms, L, c0 + n⟩ := by
  intro n
  induction n with
  | zero => intro k c0 _ _ _ _; rfl
  | succ n ih =>
    intro k c0 hsz hg hc hcap
    have hstep := captureStep_silence cfg sizes k sms L c0
      (hsz k (Nat.le_refl k) (by omega)) (hg k (Nat.le_refl k) (by omega))
      (by omega) hcap
    simp only [captureIterFrom, hstep]
    have := ih (k + 1) (c0 + 1) (fun j h1 h2 => hsz j (by omega) (by omega))
      (fun j h1 h2 => hg j (by omega) (by omega)) (by omega) hcap
    rw [this]
    congr 2
    omega

theorem captureStep_silence_exit (cfg : RecorderCfg) (sizes : Nat → Option Nat)
    (j sms L c : Nat) (hs : sizes j = some L)
    (hg : cfg.guard_window_ms ≤ j * 100 - sms)
    (hc : cfg.trailing_silence_checks ≤ c + 1) :
    captureStep cfg sizes j ⟨true, sms, L, c⟩ = Sum.inr CaptureExit.trailingSilence := by
  have h1 : ¬ (j * 100 - sms < cfg.guard_window_ms) := by omega
  simp [captureStep, hs, h1, hc]

/-! Claim C2: capture determinism under synthetic growth. -/

/-- C2.  Capture determinism under synthetic growth: for every scripted
size sequence in which speech starts at poll `s` (probed size over the
300-byte start threshold), the sizes have stopped growing by the end of
the 800 ms guard window (a constant plateau `L`, below the hard cap,
from poll `s + 7` on) and the timeout covers the run, the polling loop
of `get_user_input_with_mixmonitor` exits with trailing silence exactly
at poll `s + 13` — the poll at which the 6th consecutive no-growth
sample completes (N = `trailing_silence_checks` = 6; the first countable
no-growth sample is `s + 8`, the first poll past the guard window) — and
at no earlier poll. -/
theorem capture_determinism (s L vs timeoutMs : Nat) (sizes : Nat → Option Nat)
    (conn : Nat → Bool)
    (hconn : ∀ k, conn k = true)
    (hpre : ∀ k, k < s → sizes k = none ∨ ∃ v, sizes k = some v ∧ v ≤ 300)
    (hstart : sizes s = some vs) (hvs : 300 < vs)
    (hplateau : ∀ k, s + 7 ≤ k → sizes k = some L)
    (hcap : L ≤ 50000)
    (htm : (s + 13) * 100 < timeoutMs) :
    mixmonitorLoop defaultRecorderCfg conn sizes timeoutMs 0 initCapture =
      (s + 13, CaptureExit.trailingSilence) := by
  have hcapd : L ≤ defaultRecorderCfg.max_speech_bytes := hcap
  have h1 : captureIterFrom defaultRecorderCfg sizes 0 s initCapture =
      Sum.inl initCapture :=
    captureIterFrom_pre defaultRecorderCfg sizes s 0
      (fun j hj1 hj2 => hpre j (by omega))
  have hstep_s : captureStep defaultRecorderCfg sizes s initCapture =
      Sum.inl ⟨true, s * 100, vs, 0⟩ :=
    captureStep_start defaultRecorderCfg sizes s vs hstart hvs
  obtain ⟨w, hw⟩ := captureIterFrom_guard defaultRecorderCfg sizes (s * 100) 6 (s + 1) vs
    (fun j hj1 hj2 => by
      show j * 100 - s * 100 < 800
      omega)
  have hstep7 : captureStep defaultRecorderCfg sizes (s + 7) ⟨true, s * 100, w, 0⟩ =
      Sum.inl ⟨true, s * 100, L, 0⟩ :=
    captureStep_guard defaultRecorderCfg sizes (s + 7) (s * 100) w L
      (hplateau (s + 7) (Nat.le_refl _)) (by show (s + 7) * 100 - s * 100 < 800; omega)
  have hsil : captureIterFrom defaultRecorderCfg sizes (s + 8) 5 ⟨true, s * 100, L, 0⟩ =
      Sum.inl ⟨true, s * 100, L, 5⟩ := by
    have := captureIterFrom_silence defaultRecorderCfg sizes (s * 100) L 5 (s + 8) 0
      (fun j hj1 hj2 => hplateau j (by omega))
      (fun j hj1 hj2 => by show 800 ≤ j * 100 - s * 100; omega)
      (by show 0 + 5 < 6; omega) hcapd
    simpa using this
  have hA : captureIterFrom defaultRecorderCfg sizes 0 (s + 13) initCapture =
      captureIterFrom defaultRecorderCfg sizes s 13 initCapture := by
    have h := captureIterFrom_add_inl defaultRecorderCfg sizes s 13 0 initCapture
      initCapture h1
    simpa using h
  have hB : captureIterFrom defaultRecorderCfg sizes s 13 initCapture =
      captureIterFrom defaultRecorderCfg sizes (s + 1) 12 ⟨true, s * 100, vs, 0⟩ := by
    show captureIterFrom defaultRecorderCfg sizes s (12 + 1) initCapture = _
    simp only [captureIterFrom, hstep_s]
  have hC : captureIterFrom defaultRecorderCfg sizes (s + 1) 12 ⟨true, s * 100, vs, 0⟩ =
      captureIterFrom defaultRecorderCfg sizes (s + 7) 6 ⟨true, s * 100, w, 0⟩ := by
    have h := captureIterFrom_add_inl defaultRecorderCfg sizes 6 6 (s + 1)
      ⟨true, s * 100, vs, 0⟩ ⟨true, s * 100, w, 0⟩ hw
    have e : s + 1 + 6 = s + 7 := by omega
    rw [e] at h
    exact h
  have hD : captureIterFrom defaultRecorderCfg sizes (s + 7) 6 ⟨true, s * 100, w, 0⟩ =
      captureIterFrom defaultRecorderCfg sizes (s + 8) 5 ⟨true, s * 100, L, 0⟩ := by
    show captureIterFrom defaultRecorderCfg sizes (s + 7) (5 + 1) _ = _
    simp only [captureIterFrom, hstep7]
  have hfull : captureIterFrom defaultRecorderCfg sizes 0 (s + 13) initCapture =
      Sum.inl ⟨true, s * 100, L, 5⟩ := by
    rw [hA, hB, hC, hD, hsil]
  have hexit : captureStep defaultRecorderCfg sizes (s + 13) ⟨true, s * 100, L, 5⟩ =
      Sum.inr CaptureExit.trailingSilence :=
    captureStep_silence_exit defaultRecorderCfg sizes (s + 13) (s * 100) L 5
      (hplateau (s + 13) (by omega))
      (by show 800 ≤ (s + 13) * 100 - s * 100; omega)
      (by show 6 ≤ 5 + 1; omega)
  exact mixmonitorLoop_exit defaultRecorderCfg conn sizes timeoutMs (s + 13) initCapture
    ⟨true, s * 100, L, 5⟩ CaptureExit.trailingSilence
    (fun j hj => ⟨by omega, hconn j⟩) hfull hexit

/-- C2 witness: speech at poll 0 with a constant 400-byte plateau exits
at poll 13, the 6th no-growth sample past the guard window. -/
theorem capture_determinism_witness :
    mixmonitorLoop defaultRecorderCfg (fun _ => true) (fun _ => some 400) 1400 0
      initCapture = (13, CaptureExit.trailingSilence) :=
  capture_determinism 0 400 400 1400 (fun _ => some 400) (fun _ => true)
    (fun _ => rfl) (fun k hk => absurd hk (Nat.not_lt_zero k)) rfl (by omega)
    (fun _ _ => rfl) (by omega) (by omega)

/-! Claim C3: guard window suppression. -/

/-- C3.  Guard window suppression: with speech starting at poll `s` and
the probed size stalled at the plateau `L` from the first speech poll
on, the run of seven no-growth polls `s+1 .. s+7` that lies entirely
inside the 800 ms guard window never terminates the capture — after the
whole run the loop is still iterating with its no-growth counter reset
to 0 (first conjunct) — whereas the identical stall continuing past the
guard window does terminate the capture once the configured count of 6
post-guard no-growth samples is reached, at poll `s + 13` and not
before (second conjunct). -/
theorem guard_window_suppression (s L timeoutMs : Nat) (sizes : Nat → Option Nat)
    (conn : Nat → Bool)
    (hconn : ∀ k, conn k = true)
    (hpre : ∀ k, k < s → sizes k = none ∨ ∃ v, sizes k = some v ∧ v ≤ 300)
    (hplateau : ∀ k, s ≤ k → sizes k = some L)
    (hL : 300 < L) (hcap : L ≤ 50000)
    (htm : (s + 13) * 100 < timeoutMs) :
    captureIterFrom defaultRecorderCfg sizes 0 (s + 8) initCapture =
      Sum.inl ⟨true, s * 100, L, 0⟩ ∧
    mixmonitorLoop defaultRecorderCfg conn sizes timeoutMs 0 initCapture =
      (s + 13, CaptureExit.trailingSilence) := by
  have hcapd : L ≤ defaultRecorderCfg.max_speech_bytes := hcap
  have h1 : captureIterFrom defaultRecorderCfg sizes 0 s initCapture =
      Sum.inl initCapture :=
    captureIterFrom_pre defaultRecorderCfg sizes s 0
      (fun j hj1 hj2 => hpre j (by omega))
  have hstep_s : captureStep defaultRecorderCfg sizes s initCapture =
      Sum.inl ⟨true, s * 100, L, 0⟩ :=
    captureStep_start defaultRecorderCfg sizes s L (hplateau s (Nat.le_refl s)) hL
  have hguard : captureIterFrom defaultRecorderCfg sizes (s + 1) 7
      ⟨true, s * 100, L, 0⟩ = Sum.inl ⟨true, s * 100, L, 0⟩ :=
    captureIterFrom_guard_const defaultRecorderCfg sizes (s * 100) L 7 (s + 1) L
      (by omega) (fun j h1 h2 => hplateau j (by omega))
      (fun j h1 h2 => by show j * 100 - s * 100 < 800; omega)
  have hfirst : captureIterFrom defaultRecorderCfg sizes 0 (s + 8) initCapture =
      Sum.inl ⟨true, s * 100, L, 0⟩ := by
    have hA : captureIterFrom defaultRecorderCfg sizes 0 (s + 8) initCapture =
        captureIterFrom defaultRecorderCfg sizes s 8 initCapture := by
      have h := captureIterFrom_add_inl defaultRecorderCfg sizes s 8 0 initCapture
        initCapture h1
      simpa using h
    have hB : captureIterFrom defaultRecorderCfg sizes s 8 initCapture =
        captureIterFrom defaultRecorderCfg sizes (s + 1) 7 ⟨true, s * 100, L, 0⟩ := by
      show captureIterFrom defaultRecorderCfg sizes s (7 + 1) initCapture = _
      simp only [captureIterFrom, hstep_s]
    rw [hA, hB, hguard]
  refine ⟨hfirst, ?_⟩
  have hsil : captureIterFrom defaultRecorderCfg sizes (s + 8) 5 ⟨true, s * 100, L, 0⟩ =
      Sum.inl ⟨true, s * 100, L, 5⟩ := by
    have := captureIterFrom_silence defaultRecorderCfg sizes (s * 100) L 5 (s + 8) 0
      (fun j hj1 hj2 => hplateau j (by omega))
      (fun j hj1 hj2 => by show 800 ≤ j * 100 - s * 100; omega)
      (by show 0 + 5 < 6; omega) hcapd
    simpa using this
  have hfull : captureIterFrom defaultRecorderCfg sizes 0 (s + 13) initCapture =
      Sum.inl ⟨true, s * 100, L, 5⟩ := by
    have h := captureIterFrom_add_inl defaultRecorderCfg sizes (s + 8) 5 0 initCapture
      ⟨true, s * 100, L, 0⟩ hfirst
    have e : s + 8 + 5 = s + 13 := by omega
    rw [e] at h
    simp only [Nat.zero_add] at h
    rw [h, hsil]
  have hexit : captureStep defaultRecorderCfg sizes (s + 13) ⟨true, s * 100, L, 5⟩ =
      Sum.inr CaptureExit.trailingSilence :=
    captureStep_silence_exit defaultRecorderCfg sizes (s + 13) (s * 100) L 5
      (hplateau (s + 13) (by omega))
      (by show 800 ≤ (s + 13) * 100 - s * 100; omega)
      (by show 6 ≤ 5 + 1; omega)
  exact mixmonitorLoop_exit defaultRecorderCfg conn sizes timeoutMs (s + 13) initCapture
    ⟨true, s * 100, L, 5⟩ CaptureExit.trailingSilence
    (fun j hj => ⟨by omega, hconn j⟩) hfull hexit

/-- C3 witness: speech at poll 0, stalled at 1000 bytes throughout; the
in-guard stall leaves the counter at 0, the post-guard stall exits at
poll 13. -/
theorem guard_window_suppression_witness :
    captureIterFrom defaultRecorderCfg (fun _ => some 1000) 0 8 initCapture =
      Sum.inl ⟨true, 0, 1000, 0⟩ ∧
    mixmonitorLoop defaultRecorderCfg (fun _ => true) (fun _ => some 1000) 1400 0
      initCapture = (13, CaptureExit.trailingSilence) :=
  guard_window_suppression 0 1000 1400 (fun _ => some 1000) (fun _ => true)
    (fun _ => rfl) (fun k hk => absurd hk (Nat.not_lt_zero k)) (fun _ _ => rfl)
    (by omega) (by omega) (by omega)

/-! Claim C5: timeout safety of the polling loop. -/

theorem mixmonitorLoop_poll_bound (cfg : RecorderCfg) (conn : Nat → Bool)
    (sizes : Nat → Option Nat) (timeoutMs : Nat) :
    ∀ (fuel k : Nat) (st : CaptureState), timeoutMs - k * 100 ≤ fuel →
      k * 100 < timeoutMs + 100 →
      (mixmonitorLoop cfg conn sizes timeoutMs k st).1 * 100 < timeoutMs + 100 := by
  intro fuel
  induction fuel with
  | zero =>
    intro k st h0 hk
    rw [mixmonitorLoop_eq, if_neg (by omega)]
    simpa using hk
  | succ fuel ih =>
    intro k st h0 hk
    by_cases hlt : k * 100 < timeoutMs
    · rw [mixmonitorLoop_eq, if_pos hlt]
      by_cases hc : conn k = true
      · rw [if_pos hc]
        cases hstep : captureStep cfg sizes k st with
        | inl st2 =>
          exact ih (k + 1) st2 (by omega) (by omega)
        | inr r =>
          show (k, r).1 * 100 < timeoutMs + 100
          simpa using (by omega : k * 100 < timeoutMs + 100)
      · rw [if_neg hc]
        simpa using (by omega : k * 100 < timeoutMs + 100)
    · rw [mixmonitorLoop_eq, if_neg hlt]
      simpa using hk

/-- C5.  Timeout safety: for every configuration (any thresholds, any
timeout value), every connection trace and every size trace in which
the probed file size never grows, the polling loop of
`get_user_input_with_mixmonitor` stops at a poll whose start time is
strictly below `timeout` plus one 100 ms poll interval; no polling loop
is unbounded (the loop is a total function with a bounded exit poll,
and the bound holds from any starting state). -/
theorem mixmonitor_timeout_safety (cfg : RecorderCfg) (conn : Nat → Bool)
    (sizes : Nat → Option Nat) (timeoutMs : Nat) (st : CaptureState)
    (hng : ∀ j k, j ≤ k → probedSize sizes k ≤ probedSize sizes j) :
    (mixmonitorLoop cfg conn sizes timeoutMs 0 st).1 * 100 < timeoutMs + 100 :=
  mixmonitorLoop_poll_bound cfg conn sizes timeoutMs timeoutMs 0 st (by omega) (by omega)

/-- C5 witness: a file that never appears (every probe reports 0 bytes)
leaves the loop within the deadline. -/
theorem mixmonitor_timeout_safety_witness :
    (mixmonitorLoop defaultRecorderCfg (fun _ => true) (fun _ => none) 1000 0
      initCapture).1 * 100 < 1000 + 100 :=
  mixmonitor_timeout_safety defaultRecorderCfg (fun _ => true) (fun _ => none) 1000
    initCapture (fun _ _ _ => Nat.le_refl 0)
